import Mathlib

/-!
Shallow embedding of the mini-moving-map telemetry server
(src/server/simconnect.py and src/server.py).

Modelling choices:
* Python floats are modelled as real numbers; raw values queried from the
  live handle are modelled as rationals (every Python float literal and
  reading is a finite rational) wrapped in Option, where none stands for a
  null/unavailable reading.
* The module-level globals of simconnect.py (aircraft_data, sm, data_thread)
  form a ServerState.  sm is modelled by the identity (creation index) of the
  SimConnect instance; smCount and aqCount count how many SimConnect and
  AircraftRequests objects have ever been constructed, so that reuse versus
  re-creation is observable.  spawnCount counts background threads spawned.
* External nondeterminism (is the SimConnect library importable, does the
  SimConnect() constructor succeed, does the AircraftRequests() constructor
  succeed) is a ConnectEnv record; per-tick nondeterminism (the query results
  or an exception while querying) is a TickInput.
* The update loop of update_aircraft_data is a state-transition function
  tick, iterated by runTicks over a list of per-tick inputs; the loop-local
  variables aq and t form a LoopState.
-/

/-- The aircraft_data dict.  The keys connected and last_update are absent
until first written, hence Option. -/
structure Snapshot where
  latitude : ℝ
  longitude : ℝ
  altitude : ℝ
  heading : ℝ
  connected : Option Bool
  last_update : Option ℝ

/-- Initial aircraft_data: all numeric fields 0.0, connected and last_update
keys absent. -/
def initSnapshot : Snapshot :=
  { latitude := 0, longitude := 0, altitude := 0, heading := 0,
    connected := none, last_update := none }

/-- The module-level mutable globals of simconnect.py. -/
structure ServerState where
  aircraft_data : Snapshot
  sm : Option Nat
  dataThread : Option Bool
  smCount : Nat
  aqCount : Nat
  spawnCount : Nat

/-- Process start: zeroed snapshot, no SimConnect instance, no thread. -/
def initState : ServerState :=
  { aircraft_data := initSnapshot, sm := none, dataThread := none,
    smCount := 0, aqCount := 0, spawnCount := 0 }

/-- Environment facts consulted by connect_to_simconnect: whether the
SimConnect library imported successfully, whether the SimConnect()
constructor succeeds, and whether the AircraftRequests() constructor
succeeds. -/
structure ConnectEnv where
  libAvailable : Bool
  smCtorOk : Bool
  aqCtorOk : Bool

/-- Second half of connect_to_simconnect, after the global sm is known to be
set: construct AircraftRequests(sm, _time=100) (a fresh object on every call,
identified by the running index aqCount), set connected True under the lock,
and return the new object; if the constructor raises, the exception handler
returns None and the state mutated so far persists. -/
def finishConnect (env : ConnectEnv) (s : ServerState) : ServerState × Option Nat :=
  if env.aqCtorOk then
    ({ s with
        aqCount := s.aqCount + 1,
        aircraft_data := { s.aircraft_data with connected := some true } },
      some s.aqCount)
  else
    (s, none)

/-- connect_to_simconnect (simconnect.py lines 28-51).  Returns None when the
library is unavailable; otherwise lazily creates the global SimConnect
instance sm (only when sm is None), then always constructs a fresh
AircraftRequests.  Any exception is caught and None returned, with no
rollback of the sm assignment. -/
def connect_to_simconnect (env : ConnectEnv) (s : ServerState) : ServerState × Option Nat :=
  if env.libAvailable = false then
    (s, none)
  else
    match s.sm with
    | some _ => finishConnect env s
    | none =>
      if env.smCtorOk then
        finishConnect env
          { s with sm := some s.smCount, smCount := s.smCount + 1 }
      else
        (s, none)

/-- Python truthiness substitution for a queried value v: the expression
v if v else 0.0, where a missing (None) or zero reading yields 0.0. -/
def pyOrZero (x : Option ℚ) : ℚ :=
  match x with
  | none => 0
  | some v => if v = 0 then 0 else v

/-- The altitude expression alt_ft * 0.3048 if alt_ft else 0.0: feet-to-meter
conversion with truthiness substitution. -/
def altFromFeet (x : Option ℚ) : ℚ :=
  match x with
  | none => 0
  | some v => if v = 0 then 0 else v * 0.3048

/-- Python float modulo x % y for y > 0: x - y * floor (x / y). -/
noncomputable def pyMod (x y : ℝ) : ℝ := x - y * ⌊x / y⌋

/-- math.degrees. -/
noncomputable def degrees (t : ℝ) : ℝ := t * 180 / Real.pi

/-- Loop-local constants of the demo branch of update_aircraft_data. -/
def center_lat : ℝ := 37.6188

/-- Loop-local demo-mode center longitude. -/
def center_long : ℝ := -122.3754

/-- Loop-local demo-mode radius. -/
def radius : ℝ := 0.01

/-- One simulated-mode group write (simconnect.py lines 88-95): overwrites
latitude, longitude, altitude and heading, leaving every other key of the
dict at its prior value.  Note the heading expression 90 + degrees t mod 360
follows Python precedence: the modulo binds before the addition. -/
noncomputable def simSnapshot (t : ℝ) (snap : Snapshot) : Snapshot :=
  { snap with
    latitude := center_lat + radius * Real.cos t,
    longitude := center_long + radius * Real.sin t,
    altitude := 100,
    heading := 90 + pyMod (degrees t) 360 }

/-- One live-mode group write (simconnect.py lines 74-84): the four queried
values with truthiness substitution, plus connected True and last_update. -/
noncomputable def liveSnapshot (lat lon alt hdg : Option ℚ) (now : ℝ)
    (snap : Snapshot) : Snapshot :=
  { snap with
    latitude := ((pyOrZero lat : ℚ) : ℝ),
    longitude := ((pyOrZero lon : ℚ) : ℝ),
    altitude := ((altFromFeet alt : ℚ) : ℝ),
    heading := ((pyOrZero hdg : ℚ) : ℝ),
    connected := some true,
    last_update := some now }

/-- Loop-local state of one update_aircraft_data invocation: the
AircraftRequests object obtained at loop entry (or none) and the simulated
parameter t.  (In the source t is only initialized on the no-live branch and
is never read on the live branch; the model initializes it to 0 in both
cases.) -/
structure LoopState where
  aq : Option Nat
  t : ℝ

/-- Per-tick external input: either the four query results (with the current
wall-clock time for last_update), or an exception raised while querying the
live handle. -/
inductive TickInput where
  | ok (lat lon alt hdg : Option ℚ) (now : ℝ)
  | err

/-- The simulated-mode arm of the loop body: group write from the current t,
then t += 0.05. -/
noncomputable def simNext (g : ServerState) (ls : LoopState) : ServerState × LoopState :=
  ({ g with aircraft_data := simSnapshot ls.t g.aircraft_data },
    { ls with t := ls.t + 0.05 })

/-- One iteration of the while-True body of update_aircraft_data
(simconnect.py lines 66-104).  The branch condition mirrors if sm and aq;
on the live branch an exception while querying is caught, logged, and
connected set to False, with no other state change: the loop then proceeds
to the next iteration with the same sm and aq. -/
noncomputable def tick (g : ServerState) (ls : LoopState) (inp : TickInput) :
    ServerState × LoopState :=
  if (g.sm.isSome && ls.aq.isSome) = true then
    match inp with
    | .ok lat lon alt hdg now =>
      ({ g with aircraft_data := liveSnapshot lat lon alt hdg now g.aircraft_data }, ls)
    | .err =>
      ({ g with aircraft_data := { g.aircraft_data with connected := some false } }, ls)
  else
    simNext g ls

/-- Iterate the loop body over a list of per-tick inputs.  The source loop
has no break or return: every input is consumed. -/
noncomputable def runTicks (g : ServerState) (ls : LoopState) :
    List TickInput → ServerState × LoopState
  | [] => (g, ls)
  | inp :: rest =>
    runTicks (tick g ls inp).1 (tick g ls inp).2 rest

/-- Loop entry of update_aircraft_data (lines 57-64): one connect attempt
fixes aq (hence the mode) for the life of the loop; t starts at 0. -/
noncomputable def loopEnter (env : ConnectEnv) (g : ServerState) :
    ServerState × LoopState :=
  ((connect_to_simconnect env g).1,
    { aq := (connect_to_simconnect env g).2, t := 0 })

/-- start_simconnect_server (simconnect.py lines 107-115): connect is
synchronous; track spawns the background thread only when none is alive;
any other status does nothing. -/
def start_simconnect_server (env : ConnectEnv) (s : ServerState) (status : String) :
    ServerState × Option Nat :=
  if status = "connect" then
    connect_to_simconnect env s
  else
    if status = "track" ∧ (s.dataThread = none ∨ s.dataThread = some false) then
      ({ s with dataThread := some true, spawnCount := s.spawnCount + 1 }, none)
    else
      (s, none)

/-- n sequential track requests. -/
def trackN (env : ConnectEnv) : Nat → ServerState → ServerState
  | 0, s => s
  | n + 1, s => trackN env n (start_simconnect_server env s "track").1

/-- The Flask handler get_aircraft_data of src/server.py: run the side
effect, then return the (post-side-effect) current snapshot. -/
def get_aircraft_data (env : ConnectEnv) (s : ServerState) (status : String) :
    ServerState × Snapshot :=
  ((start_simconnect_server env s status).1,
    (start_simconnect_server env s status).1.aircraft_data)

/-- A group write to the aircraft_data dict: which keys it writes and whether
it is performed inside a with data_lock block. -/
structure WriteEvent where
  fields : List String
  locked : Bool
deriving DecidableEq

/-- The live-mode group write, lines 74-84: inside with data_lock. -/
def liveWriteEvent : WriteEvent :=
  { fields := ["latitude", "longitude", "altitude", "heading", "connected", "last_update"],
    locked := true }

/-- The simulated-mode group write, lines 88-95: NOT inside any with
data_lock block. -/
def simWriteEvent : WriteEvent :=
  { fields := ["latitude", "longitude", "altitude", "heading"],
    locked := false }

/-- The exception-handler write, lines 100-101: inside with data_lock. -/
def errWriteEvent : WriteEvent :=
  { fields := ["connected"], locked := true }

/-- The connect-success write, lines 46-47: inside with data_lock. -/
def connectWriteEvent : WriteEvent :=
  { fields := ["connected"], locked := true }

/-- The sequence of snapshot group writes performed by one loop iteration,
mirroring the branch structure of tick. -/
def tickEvents (g : ServerState) (ls : LoopState) (inp : TickInput) : List WriteEvent :=
  if (g.sm.isSome && ls.aq.isSome) = true then
    match inp with
    | .ok _ _ _ _ _ => [liveWriteEvent]
    | .err => [errWriteEvent]
  else
    [simWriteEvent]

/-- Environment with the SimConnect library missing (the import failed). -/
def envNoLib : ConnectEnv :=
  { libAvailable := false, smCtorOk := false, aqCtorOk := false }

/-- Environment where library, SimConnect() and AircraftRequests() all
succeed. -/
def envAllOk : ConnectEnv :=
  { libAvailable := true, smCtorOk := true, aqCtorOk := true }

/-- Environment where SimConnect() succeeds but AircraftRequests() raises. -/
def envAqFails : ConnectEnv :=
  { libAvailable := true, smCtorOk := true, aqCtorOk := false }

/-- A server state in which a live connection exists. -/
def liveG : ServerState := { initState with sm := some 0 }

/-- A loop state holding a live AircraftRequests object. -/
def liveLS : LoopState := { aq := some 0, t := 0 }

/-- The state reached from the live state by one tick whose query raised. -/
noncomputable def afterErr : ServerState × LoopState := tick liveG liveLS TickInput.err

/-- First connect call in the all-ok environment, from process start. -/
def c3first : ServerState × Option Nat := connect_to_simconnect envAllOk initState

/-- Second connect call in the all-ok environment. -/
def c3second : ServerState × Option Nat := connect_to_simconnect envAllOk c3first.1

/-- A server state whose background thread is alive. -/
def trackG : ServerState := { initState with dataThread := some true }

/-- A loop state with no live AircraftRequests object (simulated mode). -/
def simLS : LoopState := { aq := none, t := 0 }

lemma pyMod_eq_fract (x y : ℝ) (hy : y ≠ 0) : pyMod x y = y * Int.fract (x / y) := by
  unfold pyMod
  rw [Int.fract, mul_sub, mul_div_cancel₀ x hy]

lemma pyMod_nonneg (x y : ℝ) (hy : 0 < y) : 0 ≤ pyMod x y := by
  rw [pyMod_eq_fract x y hy.ne']
  exact mul_nonneg hy.le (Int.fract_nonneg _)

lemma pyMod_lt (x y : ℝ) (hy : 0 < y) : pyMod x y < y := by
  rw [pyMod_eq_fract x y hy.ne']
  calc y * Int.fract (x / y) < y * 1 :=
        mul_lt_mul_of_pos_left (Int.fract_lt_one _) hy
    _ = y := mul_one y

lemma pyMod_eq_of_bounds (x y : ℝ) (n : ℤ) (hy : 0 < y)
    (h1 : y * n ≤ x) (h2 : x < y * (n + 1)) : pyMod x y = x - y * n := by
  have hfl : ⌊x / y⌋ = n := by
    rw [Int.floor_eq_iff]
    constructor
    · rw [le_div_iff₀ hy, mul_comm]
      exact h1
    · rw [div_lt_iff₀ hy, mul_comm]
      linarith
  unfold pyMod
  rw [hfl]

lemma simSnapshot_simSnapshot (t1 t2 : ℝ) (snap : Snapshot) :
    simSnapshot t2 (simSnapshot t1 snap) = simSnapshot t2 snap := rfl

lemma tick_sim (g : ServerState) (ls : LoopState) (inp : TickInput) (h : ls.aq = none) :
    tick g ls inp =
      ({ g with aircraft_data := simSnapshot ls.t g.aircraft_data },
        { ls with t := ls.t + 0.05 }) := by
  unfold tick
  simp [h, simNext]

lemma runTicks_cons (g : ServerState) (ls : LoopState) (inp : TickInput)
    (rest : List TickInput) :
    runTicks g ls (inp :: rest) =
      runTicks (tick g ls inp).1 (tick g ls inp).2 rest := rfl

lemma sim_run (inp : TickInput) (k : ℕ) :
    ∀ (g : ServerState) (ls : LoopState), ls.aq = none →
      runTicks g ls (List.replicate (k + 1) inp) =
        ({ g with aircraft_data := simSnapshot (ls.t + 0.05 * k) g.aircraft_data },
          { aq := none, t := ls.t + 0.05 * ((k : ℝ) + 1) }) := by
  induction k with
  | zero =>
    intro g ls h
    rw [List.replicate_one]
    simp only [runTicks]
    simp only [tick_sim g ls inp h, h]
    norm_num
  | succ n ih =>
    intro g ls h
    rw [List.replicate_succ, runTicks_cons, tick_sim g ls inp h]
    dsimp only
    rw [ih ({ g with aircraft_data := simSnapshot ls.t g.aircraft_data })
          ({ ls with t := ls.t + 0.05 }) h]
    dsimp only
    rw [simSnapshot_simSnapshot]
    have eA : ls.t + 0.05 + 0.05 * (n : ℝ) = ls.t + 0.05 * ((n : ℝ) + 1) := by ring
    have eB : ls.t + 0.05 + 0.05 * ((n : ℝ) + 1) = ls.t + 0.05 * ((n : ℝ) + 1 + 1) := by
      ring
    push_cast
    rw [eA, eB]

/-- Claim C5: for every live-mode tick, the altitude written into the
snapshot is the queried native (feet) reading multiplied by exactly 0.3048
(so a reading of 1000 yields 304.8 within 1e-6), and any queried value that
is null/unavailable is written as 0.0 rather than raising an error. -/
theorem C5_altitude_conversion :
    (∀ (a : ℚ) (lat lon hdg : Option ℚ) (now : ℝ) (snap : Snapshot),
        (liveSnapshot lat lon (some a) hdg now snap).altitude = (a : ℝ) * 0.3048) ∧
    (∀ (lat lon hdg : Option ℚ) (now : ℝ) (snap : Snapshot),
        (liveSnapshot lat lon (some 1000) hdg now snap).altitude = 304.8 ∧
        |(liveSnapshot lat lon (some 1000) hdg now snap).altitude - 304.8| ≤ 1e-6) ∧
    (∀ (now : ℝ) (snap : Snapshot),
        (liveSnapshot none none none none now snap).latitude = 0 ∧
        (liveSnapshot none none none none now snap).longitude = 0 ∧
        (liveSnapshot none none none none now snap).altitude = 0 ∧
        (liveSnapshot none none none none now snap).heading = 0) := by
  refine ⟨?_, ?_, ?_⟩
  · intro a lat lon hdg now snap
    by_cases ha : a = 0
    · subst ha
      simp [liveSnapshot, altFromFeet]
    · simp [liveSnapshot, altFromFeet, ha]
  · intro lat lon hdg now snap
    constructor
    · norm_num [liveSnapshot, altFromFeet]
    · norm_num [liveSnapshot, altFromFeet]
  · intro now snap
    refine ⟨?_, ?_, ?_, ?_⟩ <;> simp [liveSnapshot, altFromFeet, pyOrZero]

/-- Claim C7: every simulated-mode tick writes only the latitude, longitude,
altitude and heading fields of the snapshot; the connected field (and the
last_update field) is left exactly at its prior value. -/
theorem C7_sim_tick_frame (g : ServerState) (ls : LoopState) (inp : TickInput)
    (h : (g.sm.isSome && ls.aq.isSome) = false) :
    ((tick g ls inp).1.aircraft_data.connected = g.aircraft_data.connected) ∧
    ((tick g ls inp).1.aircraft_data.last_update = g.aircraft_data.last_update) ∧
    ((tick g ls inp).1.aircraft_data.latitude = center_lat + radius * Real.cos ls.t) ∧
    ((tick g ls inp).1.aircraft_data.longitude = center_long + radius * Real.sin ls.t) ∧
    ((tick g ls inp).1.aircraft_data.altitude = 100) ∧
    ((tick g ls inp).1.aircraft_data.heading = 90 + pyMod (degrees ls.t) 360) ∧
    ((tick g ls inp).1.sm = g.sm) ∧
    ((tick g ls inp).1.dataThread = g.dataThread) := by
  refine ⟨?_, ?_, ?_, ?_, ?_, ?_, ?_, ?_⟩ <;>
    simp [tick, h, simNext, simSnapshot]

/-- Witness for C7 at a concrete simulated-mode state. -/
theorem C7_sim_tick_frame_witness :
    ((initState.sm.isSome && simLS.aq.isSome) = false) ∧
    ((tick initState simLS TickInput.err).1.aircraft_data.connected
        = initState.aircraft_data.connected) ∧
    ((tick initState simLS TickInput.err).1.aircraft_data.altitude = 100) :=
  ⟨rfl,
    (C7_sim_tick_frame initState simLS TickInput.err rfl).1,
    (C7_sim_tick_frame initState simLS TickInput.err rfl).2.2.2.2.1⟩

/-- Claim C8: for every request GET /api/simconnect/STATUS with STATUS not
connect and not track, neither branch is triggered, the program state is
unchanged, and the response is the current snapshot; for every status value
the endpoint returns the current snapshot. -/
theorem C8_other_status_pure_read (env : ConnectEnv) (s : ServerState)
    (status : String) (h1 : status ≠ "connect") (h2 : status ≠ "track") :
    (get_aircraft_data env s status = (s, s.aircraft_data)) ∧
    (∀ st2 : String,
        (get_aircraft_data env s st2).2 = (get_aircraft_data env s st2).1.aircraft_data) := by
  constructor
  · simp [get_aircraft_data, start_simconnect_server, h1, h2]
  · intro st2
    rfl

/-- Witness for C8 at the concrete status value reset. -/
theorem C8_other_status_pure_read_witness :
    ("reset" ≠ "connect") ∧ ("reset" ≠ "track") ∧
    (get_aircraft_data envAllOk initState "reset" = (initState, initState.aircraft_data)) :=
  ⟨by decide, by decide,
    (C8_other_status_pure_read envAllOk initState "reset" (by decide) (by decide)).1⟩

/-- Claim C10: a failed connect is not atomic on the connection state: if
creating the SimConnect instance succeeds but the AircraftRequests setup
raises, connect returns None yet the global sm remains set to the new
instance, and every later connect call reuses that sm instead of creating a
fresh SimConnect. -/
theorem C10_failed_connect_keeps_sm (env : ConnectEnv) (s : ServerState)
    (hsm0 : s.sm = none) (hlib : env.libAvailable = true)
    (hctor : env.smCtorOk = true) (haq : env.aqCtorOk = false) :
    ((connect_to_simconnect env s).2 = none) ∧
    ((connect_to_simconnect env s).1.sm = some s.smCount) ∧
    (∀ env2 : ConnectEnv, env2.libAvailable = true →
      ((connect_to_simconnect env2 (connect_to_simconnect env s).1).1.sm
          = (connect_to_simconnect env s).1.sm) ∧
      ((connect_to_simconnect env2 (connect_to_simconnect env s).1).1.smCount
          = (connect_to_simconnect env s).1.smCount)) := by
  have hstate : connect_to_simconnect env s
      = ({ s with sm := some s.smCount, smCount := s.smCount + 1 }, none) := by
    simp [connect_to_simconnect, finishConnect, hsm0, hlib, hctor, haq]
  refine ⟨by rw [hstate], by rw [hstate], ?_⟩
  intro env2 hlib2
  rw [hstate]
  dsimp only
  cases haq2 : env2.aqCtorOk
  · simp [connect_to_simconnect, finishConnect, hlib2, haq2]
  · simp [connect_to_simconnect, finishConnect, hlib2, haq2]

/-- Witness for C10 at the concrete initial state with an environment where
only the AircraftRequests constructor fails. -/
theorem C10_failed_connect_keeps_sm_witness :
    (initState.sm = none) ∧ (envAqFails.libAvailable = true) ∧
    (envAqFails.smCtorOk = true) ∧ (envAqFails.aqCtorOk = false) ∧
    ((connect_to_simconnect envAqFails initState).2 = none) ∧
    ((connect_to_simconnect envAqFails initState).1.sm = some initState.smCount) :=
  ⟨rfl, rfl, rfl, rfl,
    (C10_failed_connect_keeps_sm envAqFails initState rfl rfl rfl rfl).1,
    (C10_failed_connect_keeps_sm envAqFails initState rfl rfl rfl rfl).2.1⟩

lemma start_track_running (env : ConnectEnv) (s : ServerState)
    (h : s.dataThread = some true) :
    start_simconnect_server env s "track" = (s, none) := by
  simp [start_simconnect_server, h]

lemma trackN_running (env : ConnectEnv) (n : ℕ) :
    ∀ s : ServerState, s.dataThread = some true → trackN env n s = s := by
  induction n with
  | zero =>
    intro s h
    rfl
  | succ m ih =>
    intro s h
    show trackN env m (start_simconnect_server env s "track").1 = s
    rw [start_track_running env s h]
    exact ih s h

/-- Claim C6: start track is idempotent: for any sequence of track calls, at
most one updater task is ever running (spawned loops never exit, so the
number of tasks ever spawned bounds the number running); any call made while
a task is already running changes nothing. -/
theorem C6_track_idempotent (env : ConnectEnv) :
    (∀ s : ServerState, s.dataThread = some true →
        start_simconnect_server env s "track" = (s, none)) ∧
    (∀ (n : ℕ) (s : ServerState), s.dataThread = none →
        (trackN env n s).spawnCount ≤ s.spawnCount + 1) := by
  constructor
  · intro s h
    exact start_track_running env s h
  · intro n
    induction n with
    | zero =>
      intro s h
      exact Nat.le_succ _
    | succ m ih =>
      intro s h
      show (trackN env m (start_simconnect_server env s "track").1).spawnCount
          ≤ s.spawnCount + 1
      have hstart : start_simconnect_server env s "track"
          = ({ s with dataThread := some true, spawnCount := s.spawnCount + 1 }, none) := by
        simp [start_simconnect_server, h]
      rw [hstart]
      rw [trackN_running env m
            ({ s with dataThread := some true, spawnCount := s.spawnCount + 1 }) rfl]

/-- Witness for C6: a second track call on a running state is a no-op, and
three track calls from process start spawn at most one loop. -/
theorem C6_track_idempotent_witness :
    (trackG.dataThread = some true ∧
      start_simconnect_server envAllOk trackG "track" = (trackG, none)) ∧
    (initState.dataThread = none ∧
      (trackN envAllOk 3 initState).spawnCount ≤ initState.spawnCount + 1) :=
  ⟨⟨rfl, (C6_track_idempotent envAllOk).1 trackG rfl⟩,
    ⟨rfl, (C6_track_idempotent envAllOk).2 3 initState rfl⟩⟩

/-- Claim C2 (amended): on an exception raised while querying the live
handle, the tick sets connected to false and changes nothing else: the
handle is kept, the loop does not terminate, and the next tick again runs in
live mode. -/
theorem C2_err_keeps_live_mode (g : ServerState) (ls : LoopState)
    (h : (g.sm.isSome && ls.aq.isSome) = true) :
    (tick g ls TickInput.err
      = ({ g with aircraft_data := { g.aircraft_data with connected := some false } }, ls)) ∧
    ((tick g ls TickInput.err).2.aq = ls.aq) ∧
    (((tick g ls TickInput.err).1.sm.isSome
        && (tick g ls TickInput.err).2.aq.isSome) = true) := by
  refine ⟨?_, ?_, ?_⟩ <;> simp [tick, h]

/-- Witness for C2 (amended) at a concrete connected state. -/
theorem C2_err_keeps_live_mode_witness :
    ((liveG.sm.isSome && liveLS.aq.isSome) = true) ∧
    (tick liveG liveLS TickInput.err
      = ({ liveG with
            aircraft_data := { liveG.aircraft_data with connected := some false } },
          liveLS)) :=
  ⟨rfl, (C2_err_keeps_live_mode liveG liveLS rfl).1⟩

/-- Counterexample to Claim C2 as stated: after an exception tick from a
connected state, the loop neither terminates permanently (a subsequent tick
still changes the snapshot) nor drops the handle (aq is still present) --
the code follows neither policy A nor policy B. -/
theorem C2_policy_counterexample :
    ¬ ((∀ inp : TickInput, tick afterErr.1 afterErr.2 inp = afterErr) ∨
        afterErr.2.aq = none) := by
  intro hcl
  cases hcl with
  | inl hA =>
    have h1 := congrArg (fun p => p.1.aircraft_data.latitude)
      (hA (TickInput.ok (some 1) none none none 0))
    simp [afterErr, tick, liveG, liveLS, initState, initSnapshot,
      liveSnapshot, pyOrZero] at h1
  | inr hB =>
    simp [afterErr, tick, liveG, liveLS, initState] at hB

/-- Counterexample to Claim C3 as stated: with a handle already existing
after a first successful connect, a second connect call does not return the
existing handle; it constructs and returns a fresh AircraftRequests
object. -/
theorem C3_connect_counterexample :
    (c3first.1.sm.isSome = true) ∧
    (c3first.2 = some 0) ∧
    (c3second.2 = some 1) ∧
    (c3second.2 ≠ c3first.2) ∧
    (c3second.1.aqCount = c3first.1.aqCount + 1) := by
  refine ⟨rfl, rfl, rfl, by decide, rfl⟩

/-- Claim C3 (amended): when a SimConnect instance already exists, a further
connect call reuses it (sm unchanged, no new SimConnect created) but re-runs
the request setup: it constructs and returns a fresh AircraftRequests object
on every successful call. -/
theorem C3_connect_reuses_sm (env : ConnectEnv) (s : ServerState)
    (hlib : env.libAvailable = true) (haq : env.aqCtorOk = true)
    (hsm : s.sm.isSome = true) :
    ((connect_to_simconnect env s).1.sm = s.sm) ∧
    ((connect_to_simconnect env s).1.smCount = s.smCount) ∧
    ((connect_to_simconnect env s).2 = some s.aqCount) ∧
    ((connect_to_simconnect env s).1.aqCount = s.aqCount + 1) := by
  obtain ⟨m, hm⟩ := Option.isSome_iff_exists.mp hsm
  refine ⟨?_, ?_, ?_, ?_⟩ <;> simp [connect_to_simconnect, finishConnect, hlib, haq, hm]

/-- Witness for C3 (amended) at the state reached by a first successful
connect. -/
theorem C3_connect_reuses_sm_witness :
    (envAllOk.libAvailable = true) ∧ (envAllOk.aqCtorOk = true) ∧
    (c3first.1.sm.isSome = true) ∧
    ((connect_to_simconnect envAllOk c3first.1).2 = some c3first.1.aqCount) :=
  ⟨rfl, rfl, rfl, (C3_connect_reuses_sm envAllOk c3first.1 rfl rfl rfl).2.2.1⟩

/-- Claim C1 (amended): in simulated mode the heading written into the
snapshot equals 90 + (degrees t mod 360) -- Python precedence makes the
modulo bind before the addition -- so the stored heading always lies in
[90, 450), not in [0, 360). -/
theorem C1_heading_amended (t : ℝ) (snap : Snapshot) :
    ((simSnapshot t snap).heading = 90 + pyMod (degrees t) 360) ∧
    (90 ≤ (simSnapshot t snap).heading) ∧
    ((simSnapshot t snap).heading < 450) := by
  refine ⟨rfl, ?_, ?_⟩
  · have h := pyMod_nonneg (degrees t) 360 (by norm_num)
    show 90 ≤ 90 + pyMod (degrees t) 360
    linarith
  · have h := pyMod_lt (degrees t) 360 (by norm_num)
    show 90 + pyMod (degrees t) 360 < 450
    linarith

/-- Counterexample to Claim C1 as stated: at the 96th simulated tick the
parameter is t = 4.75, where degrees t is about 272.15; the stored heading
is 90 + 272.15, which differs from (90 + degrees t) mod 360 (about 2.15)
and is not below 360. -/
theorem C1_heading_counterexample :
    ((runTicks (loopEnter envNoLib initState).1 (loopEnter envNoLib initState).2
        (List.replicate 96 TickInput.err)).1.aircraft_data.heading
      ≠ pyMod (90 + degrees 4.75) 360) ∧
    ¬ ((runTicks (loopEnter envNoLib initState).1 (loopEnter envNoLib initState).2
        (List.replicate 96 TickInput.err)).1.aircraft_data.heading < 360) := by
  have hloop : loopEnter envNoLib initState = (initState, { aq := none, t := 0 }) := by
    simp [loopEnter, connect_to_simconnect, envNoLib]
  have h96 : (96 : ℕ) = 95 + 1 := by norm_num
  rw [hloop]
  dsimp only
  rw [h96, sim_run TickInput.err 95 initState { aq := none, t := 0 } rfl]
  dsimp only
  simp only [simSnapshot]
  have harg : (0 : ℝ) + 0.05 * ((95 : ℕ) : ℝ) = 4.75 := by norm_num
  rw [harg]
  have hpi1 : (3 : ℝ) < Real.pi := Real.pi_gt_three
  have hpi2 : Real.pi < 3.15 := Real.pi_lt_d2
  have hD1 : (270 : ℝ) < degrees 4.75 := by
    unfold degrees
    rw [lt_div_iff₀ Real.pi_pos]
    nlinarith
  have hD2 : degrees 4.75 < 360 := by
    unfold degrees
    rw [div_lt_iff₀ Real.pi_pos]
    nlinarith
  have hm1 : pyMod (degrees 4.75) 360 = degrees 4.75 := by
    have := pyMod_eq_of_bounds (degrees 4.75) 360 0 (by norm_num)
      (by push_cast; linarith) (by push_cast; linarith)
    push_cast at this
    linarith [this]
  have hm2 : pyMod (90 + degrees 4.75) 360 = 90 + degrees 4.75 - 360 := by
    have := pyMod_eq_of_bounds (90 + degrees 4.75) 360 1 (by norm_num)
      (by push_cast; linarith) (by push_cast; linarith)
    push_cast at this
    linarith [this]
  constructor
  · rw [hm1, hm2]
    intro hEq
    linarith
  · rw [hm1]
    intro hLt
    linarith

/-- Claim C4 (amended): with no live source, after k >= 1 simulated ticks the
parameter t equals 0.05 k, while the snapshot latitude and longitude were
computed from the pre-increment parameter and equal the circle formulas at
0.05 (k - 1), not 0.05 k. -/
theorem C4_sim_trajectory (env : ConnectEnv) (g : ServerState) (k : ℕ)
    (inp : TickInput) (hlib : env.libAvailable = false) (hk : 1 ≤ k) :
    ((runTicks (loopEnter env g).1 (loopEnter env g).2
        (List.replicate k inp)).2.t = 0.05 * k) ∧
    ((runTicks (loopEnter env g).1 (loopEnter env g).2
        (List.replicate k inp)).1.aircraft_data.latitude
      = 37.6188 + 0.01 * Real.cos (0.05 * ((k : ℝ) - 1))) ∧
    ((runTicks (loopEnter env g).1 (loopEnter env g).2
        (List.replicate k inp)).1.aircraft_data.longitude
      = -122.3754 + 0.01 * Real.sin (0.05 * ((k : ℝ) - 1))) := by
  obtain ⟨j, rfl⟩ : ∃ j, k = j + 1 := ⟨k - 1, (Nat.succ_pred_eq_of_pos hk).symm⟩
  have hloop : loopEnter env g = (g, { aq := none, t := 0 }) := by
    simp [loopEnter, connect_to_simconnect, hlib]
  rw [hloop]
  dsimp only
  rw [sim_run inp j g { aq := none, t := 0 } rfl]
  dsimp only
  have harg : (0 : ℝ) + 0.05 * (j : ℝ) = 0.05 * (((j : ℝ) + 1) - 1) := by ring
  refine ⟨?_, ?_, ?_⟩
  · push_cast
    ring
  · simp only [simSnapshot, center_lat, radius]
    rw [harg]
    push_cast
    ring_nf
  · simp only [simSnapshot, center_long, radius]
    rw [harg]
    push_cast
    ring_nf

/-- Witness for C4 (amended) at k = 2 ticks from process start. -/
theorem C4_sim_trajectory_witness :
    (envNoLib.libAvailable = false) ∧ (1 ≤ 2) ∧
    ((runTicks (loopEnter envNoLib initState).1 (loopEnter envNoLib initState).2
        (List.replicate 2 TickInput.err)).2.t = 0.05 * (2 : ℕ)) :=
  ⟨rfl, by norm_num,
    (C4_sim_trajectory envNoLib initState 2 TickInput.err rfl (by norm_num)).1⟩

/-- Counterexample to Claim C4 as stated: after k = 1 simulated tick the
snapshot latitude is 37.6188 + 0.01 cos 0 (the pre-increment parameter),
which differs from the claimed 37.6188 + 0.01 cos 0.05 by about 1.25e-5,
far above the 1e-9 tolerance. -/
theorem C4_sim_trajectory_counterexample :
    ¬ (|(runTicks (loopEnter envNoLib initState).1 (loopEnter envNoLib initState).2
          (List.replicate 1 TickInput.err)).1.aircraft_data.latitude
        - (37.6188 + 0.01 * Real.cos (0.05 * ((1 : ℕ) : ℝ)))| ≤ 1e-9) := by
  have hloop : loopEnter envNoLib initState = (initState, { aq := none, t := 0 }) := by
    simp [loopEnter, connect_to_simconnect, envNoLib]
  have h1 : (1 : ℕ) = 0 + 1 := by norm_num
  rw [hloop]
  dsimp only
  rw [h1, sim_run TickInput.err 0 initState { aq := none, t := 0 } rfl]
  dsimp only
  simp only [simSnapshot, center_lat, radius]
  have harg : (0 : ℝ) + 0.05 * ((0 : ℕ) : ℝ) = 0 := by norm_num
  rw [harg, Real.cos_zero]
  have habs05 : |(0.05 : ℝ)| = 0.05 := abs_of_pos (by norm_num)
  have hcb := Real.cos_bound (show |(0.05 : ℝ)| ≤ 1 by rw [habs05]; norm_num)
  rw [habs05] at hcb
  have hcos : Real.cos 0.05 ≤ 0.99876 := by
    have h2 := (abs_le.mp hcb).2
    norm_num at h2
    linarith
  intro hle
  have h3 := (abs_le.mp hle).2
  norm_num at h3 hcos ⊢
  linarith

/-- Claim C9 evaluated at the failing input: the simulated-mode group write
of a tick in a loop with no live source is performed without holding
data_lock, so not every field-group write is protected by the single
snapshot lock, while the live-mode group write is protected. -/
theorem C9_sim_write_unlocked :
    (tickEvents (loopEnter envNoLib initState).1 (loopEnter envNoLib initState).2
        TickInput.err = [simWriteEvent]) ∧
    (simWriteEvent.locked = false) ∧
    (¬ ∀ e ∈ tickEvents (loopEnter envNoLib initState).1 (loopEnter envNoLib initState).2
        TickInput.err, e.locked = true) ∧
    (tickEvents liveG liveLS (TickInput.ok none none none none 0) = [liveWriteEvent]) ∧
    (liveWriteEvent.locked = true) := by
  have hloop : loopEnter envNoLib initState = (initState, { aq := none, t := 0 }) := by
    simp [loopEnter, connect_to_simconnect, envNoLib]
  have hev : tickEvents (loopEnter envNoLib initState).1
      (loopEnter envNoLib initState).2 TickInput.err = [simWriteEvent] := by
    rw [hloop]
    rfl
  refine ⟨hev, rfl, ?_, rfl, rfl⟩
  intro hall
  have := hall simWriteEvent (by rw [hev]; exact List.mem_singleton_self _)
  simp [simWriteEvent] at this
